import Mathlib

/-!
Verification of the inbound-event dispatch pipeline of the
daily_hacker_news_line_chatbot repository (Rust, warp + tokio).

The development shallowly embeds the relevant source functions:

* `src/utils.rs`          — `create_retry_strategy`, `with_retry`
* `src/api/line.rs`       — `validate_signature`, message constructors
* `src/handlers/webhook.rs` — `parse_request_handler`, `process_request`,
  `function_call_handler`, `handle_push_summary`, `handle_push_url_summary`,
  `handle_push_messages`
* `src/handlers/stories.rs` — `push_story_summaries`, `push_url_summary`,
  `is_valid_url`
* `src/api/chatgpt.rs`    — the pure normalisation step of `run_conversation`

Bytes are modelled as `List Nat` (each element a byte value), machine words as
`Nat` reduced modulo `2 ^ 32` where the Rust code uses `u32` arithmetic.
External collaborators (HTTP client, ChatGPT, Kagi, RSS fetch, LINE delivery)
are modelled as record fields of a `Collab` value; every embedded handler
returns, besides its result, the list of outbound `Effect`s it performed, so
"no downstream call happens" is expressible as an empty effect list.
-/

/-- The `ApiError` type from `src/models.rs`.  The payloads of `NetworkError` and
`SerializationError` wrap foreign error types in Rust; they are modelled by
their rendered message strings. -/
inductive ApiError where
  | networkError (msg : String)
  | serializationError (msg : String)
  | validationError (msg : String)
  | configError (msg : String)
  | aiError (msg : String)
  | externalServiceError (msg : String)
deriving DecidableEq, Repr

/-! ## Retrying call executor (`src/utils.rs`) -/

/-- The error classification performed by the closure inside `with_retry`
(`src/utils.rs` lines 93-96): a `NetworkError` is mapped to the string
`"retryable"`, every other error to `"non-retryable"`.  Note that
`tokio_retry::Retry::spawn` never inspects this string. -/
def retry_error_class : ApiError → String
  | .networkError _ => "retryable"
  | _ => "non-retryable"

/-- Embeds `create_retry_strategy` (`src/utils.rs` lines 78-82):
`ExponentialBackoff::from_millis(100).max_delay(Duration::from_secs(5)).take(3)`.
The iterator yields the delays 100 ms, then 100² = 10000 ms capped to 5000 ms,
then capped again, and `take(3)` bounds it to three delays.  Only the length
of this list matters to the retry semantics. -/
def create_retry_strategy : List Nat := [100, 5000, 5000]

/-- Semantics of `tokio_retry::Retry::spawn strategy action`: run the action;
on success stop; on failure consume one delay from the strategy iterator and
retry, or give up with the (classified) error once the iterator is exhausted.
The operation is modelled as a function from the invocation counter `k`
(0-based) to that invocation's outcome; the returned `Nat` is the total number
of invocations performed.  `Retry::spawn` retries on *any* `Err`, regardless
of the `"retryable"` / `"non-retryable"` classification. -/
def retry_spawn {α : Type} (op : Nat → Except ApiError α) :
    List Nat → Nat → Except String α × Nat
  | delays, k =>
    match op k with
    | .ok v => (.ok v, k + 1)
    | .error e =>
      match delays with
      | [] => (.error (retry_error_class e), k + 1)
      | _ :: rest => retry_spawn op rest (k + 1)

/-- Embeds `with_retry` (`src/utils.rs` lines 85-104): run the operation through
`Retry::spawn create_retry_strategy`; if the whole loop fails (the loop's
error is only the classification string), invoke the operation once more and
return that invocation's result verbatim (`Err(_) => operation().await`).
Returns the result together with the total number of invocations of the
operation. -/
def with_retry {α : Type} (op : Nat → Except ApiError α) :
    Except ApiError α × Nat :=
  match retry_spawn op create_retry_strategy 0 with
  | (.ok v, n) => (.ok v, n)
  | (.error _, n) => (op n, n + 1)

/-! ## Data model (`src/models.rs`, `src/api/chatgpt.rs`) -/

/-- The `Story` record from `src/models.rs`. -/
structure Story where
  storylink : String
  story : String
deriving DecidableEq, Repr, Inhabited

/-- The `LineMessage` record from `src/models.rs`.  The `contents` field holds the flex
JSON of a bubble in Rust; it is modelled by the summary payload the bubble is
built from (the decorative JSON layout carries no further data from the
pipeline). -/
structure LineMessage where
  message_type : String
  text : Option String
  alt_text : Option String
  contents : Option String
deriving DecidableEq, Repr

/-- Embeds `create_text_message` (`src/api/line.rs` lines 137-144). -/
def create_text_message (text : String) : LineMessage :=
  { message_type := "text", text := some text, alt_text := none, contents := none }

/-- Embeds `create_summary_bubble` (`src/api/line.rs` lines 264-350): a flex bubble
whose body renders the summary text; modelled with the summary as payload. -/
def create_summary_bubble (summary : String) : LineMessage :=
  { message_type := "flex", text := none,
    alt_text := some "Today's Hacker News Summary", contents := some summary }

/-- A `serde_json::Value`, as far as the webhook handlers inspect one:
null, boolean, integer number, string, array, object.  (Float numbers never
reach the inspected positions; an integer is modelled as `Int`.) -/
inductive JVal where
  | jnull
  | jbool (b : Bool)
  | jnum (n : Int)
  | jstr (s : String)
  | jarr (xs : List JVal)
  | jobj (fields : List (String × JVal))

/-- Outcome of `serde_json::from_str` on an arguments string: either a parse
failure or a parsed value.  The parser itself is external (serde); handlers
only branch on this outcome. -/
inductive JArgs where
  | parseFail
  | val (v : JVal)

/-- The indexing operator `value["key"]` on a `serde_json::Value`: field lookup on objects, `Null`
on a missing key or a non-object. -/
def jget (v : JVal) (key : String) : JVal :=
  match v with
  | .jobj fields => ((fields.find? (fun p => p.1 = key)).map (fun p => p.2)).getD .jnull
  | _ => .jnull

/-- The `Value::as_u64` accessor restricted to the modelled integers: `Some` exactly on
non-negative integers. -/
def jval_as_u64 : JVal → Option Nat
  | .jnum n => if 0 ≤ n then some n.toNat else none
  | _ => none

/-- The `Value::as_array` accessor. -/
def jval_as_array : JVal → Option (List JVal)
  | .jarr xs => some xs
  | _ => none

/-- The `Value::as_str` accessor. -/
def jval_as_str : JVal → Option String
  | .jstr s => some s
  | _ => none

/-- The `ToolFunction` record from `src/api/chatgpt.rs`: tool name plus the JSON-encoded
argument string. -/
structure ToolFunction where
  name : String
  arguments : String
deriving DecidableEq, Repr

/-- The `ToolCall` record from `src/api/chatgpt.rs`. -/
structure ToolCall where
  function : ToolFunction
deriving DecidableEq, Repr

/-- The `FunctionMessage` record from `src/api/chatgpt.rs`: one choice's message in the
AI chat-completion response. -/
structure FunctionMessage where
  content : Option String
  tool_calls : Option (List ToolCall)
deriving DecidableEq, Repr

/-- The `FunctionCallResult` record from `src/api/chatgpt.rs`: the normalized reply that
`run_conversation` serializes and the webhook handler reparses.  (The
serialize-then-reparse roundtrip through a JSON string is the identity on
these three optional fields and is elided.) -/
structure FunctionCallResult where
  name : Option String
  arguments : Option String
  message : Option String
deriving DecidableEq, Repr

/-- The `LineEventSource` record from `src/models.rs`. -/
structure LineEventSource where
  source_type : String
  user_id : Option String
deriving DecidableEq, Repr

/-- The `LineEventMessage` record from `src/models.rs`. -/
structure LineEventMessage where
  message_type : String
  text : Option String
deriving DecidableEq, Repr

/-- The `LineWebhookEvent` record from `src/models.rs`. -/
structure LineWebhookEvent where
  event_type : String
  reply_token : Option String
  source : LineEventSource
  message : Option LineEventMessage
deriving DecidableEq, Repr

/-- The `LineWebhookRequest` record from `src/models.rs`. -/
structure LineWebhookRequest where
  events : List LineWebhookEvent
deriving DecidableEq, Repr

/-! ## Effects and collaborators -/

/-- One outbound call of the pipeline, recorded in order of issue. -/
inductive Effect where
  | fetchStories
  | fetchFeed
  | chatSummary (text : String)
  | translateReq (text language_code : String)
  | kagiSummarize (url : String)
  | pushMessage (user_id : String) (messages : List LineMessage)
  | replyMessage (reply_token : String) (messages : List LineMessage)
  | detectLanguage (text : String)
  | aiResolve (text : String)
deriving DecidableEq, Repr

/-- The external collaborators of the pipeline (RSS story source, ChatGPT,
Kagi, the LINE delivery API, and the serde JSON parser for tool-call
arguments), modelled as response functions.  The embedded handlers are
parametrised by one such record. -/
structure Collab where
  argParse : String → JArgs
  stories : Except ApiError (List Story)
  chatSummary : String → Except ApiError String
  translateText : String → String → Except ApiError String
  kagiSummarize : String → Except ApiError String
  pushResult : Except ApiError Unit
  replyResult : Except ApiError Unit
  languageCode : String → Except ApiError String
  aiChoices : String → Except ApiError (List FunctionMessage)
  latestStoryMessage : Except ApiError LineMessage

/-! ## Story handlers (`src/handlers/stories.rs`) -/

/-- The index filter of `push_story_summaries` (`src/handlers/stories.rs`
lines 211-220): keep `stories[i-1]` for `i > 0 && i <= stories.len()`,
drop everything else. -/
def selectStories (stories : List Story) (indexes : List Nat) : List Story :=
  indexes.filterMap fun i =>
    if 0 < i ∧ i ≤ stories.length then stories.get? (i - 1) else none

/-- The formatting step of `push_story_summaries` (`src/handlers/stories.rs`
lines 227-232): `format!("{}. {} {}", i + 1, story.story, story.storylink)`
joined with blank lines. -/
def formatStories (selected : List Story) : String :=
  String.intercalate "\n\n"
    (selected.enum.map fun p =>
      toString (p.1 + 1) ++ ". " ++ p.2.story ++ " " ++ p.2.storylink)

/-- Embeds `push_story_summaries` (`src/handlers/stories.rs` lines 201-245). -/
def push_story_summaries (c : Collab) (token user_id language_code : String)
    (indexes : List Nat) : Except ApiError Unit × List Effect :=
  match c.stories with
  | .error e => (.error e, [.fetchStories])
  | .ok stories =>
    let selected := selectStories stories indexes
    if selected.isEmpty then
      (.error (.validationError "No valid stories selected"), [.fetchStories])
    else
      let stories_text := formatStories selected
      match c.chatSummary stories_text with
      | .error e => (.error e, [.fetchStories, .chatSummary stories_text])
      | .ok summary =>
        if language_code ≠ "en" ∧ language_code ≠ "zh-tw" then
          match c.translateText summary language_code with
          | .error e =>
            (.error e, [.fetchStories, .chatSummary stories_text,
                        .translateReq summary language_code])
          | .ok translated =>
            (c.pushResult,
             [.fetchStories, .chatSummary stories_text,
              .translateReq summary language_code,
              .pushMessage user_id [create_summary_bubble translated]])
        else
          (c.pushResult,
           [.fetchStories, .chatSummary stories_text,
            .pushMessage user_id [create_summary_bubble summary]])

/-! ## URL validation (`src/handlers/stories.rs` lines 273-283)

`is_valid_url` delegates parsing to the external `url` crate (a WHATWG URL
parser) and then requires an `http`/`https` scheme and a present host. -/

/-- Split a character list at the first `:`; `none` when no `:` occurs.
Modelled from the spec: the scheme grammar of the WHATWG parser used by the
`url` crate (everything before the first colon). -/
def schemeSplit : List Char → Option (List Char × List Char)
  | [] => none
  | ch :: cs =>
    if ch = ':' then some ([], cs)
    else
      match schemeSplit cs with
      | some (sch, rest) => some (ch :: sch, rest)
      | none => none

/-- Modelled from the spec: a WHATWG scheme is a letter followed by
letters, digits, `+`, `-` or `.`. -/
def schemeOK (sch : List Char) : Bool :=
  match sch with
  | [] => false
  | ch :: rest =>
    ch.isAlpha && rest.all (fun d => d.isAlphanum || d = '+' || d = '-' || d = '.')

/-- The part of an authority after the last `@` (the host-and-port part,
userinfo stripped). -/
def afterLastAt (l : List Char) : List Char :=
  l.foldl (fun acc ch => if ch = '@' then [] else acc ++ [ch]) []

/-- Modelled from the spec: host extraction for a special (http/https) URL —
after `//`, the authority runs to the first `/`, `?` or `#`; userinfo ends at
the last `@`; a `:` starts the port; the host must be nonempty.  (IPv6
bracket syntax is not modelled; no claim exercises it.) -/
def hostOf (rest : List Char) : Option (List Char) :=
  match rest with
  | '/' :: '/' :: tail =>
    let authority := tail.takeWhile (fun ch => ch ≠ '/' ∧ ch ≠ '?' ∧ ch ≠ '#')
    let host := (afterLastAt authority).takeWhile (fun ch => ch ≠ ':')
    if host.isEmpty then none else some host
  | _ => none

/-- Embeds `is_valid_url` (`src/handlers/stories.rs` lines 273-283).  Modelled from
the spec: `Url::parse` is the external `url` crate; the model validates the
scheme shape, lowercases the scheme as the crate does, and requires an
http/https scheme with a present (nonempty) host, exactly the checks the
source performs on the parsed URL. -/
def is_valid_url (url : String) : Bool :=
  match schemeSplit url.toList with
  | none => false
  | some (sch, rest) =>
    let scheme := String.mk (sch.map Char.toLower)
    schemeOK sch && (scheme == "http" || scheme == "https") && (hostOf rest).isSome

/-- Embeds `push_url_summary` (`src/handlers/stories.rs` lines 248-270). -/
def push_url_summary (c : Collab) (token user_id language_code : String)
    (url : String) : Except ApiError Unit × List Effect :=
  if ¬ is_valid_url url then
    (.error (.validationError "Invalid URL provided"), [])
  else
    match c.kagiSummarize url with
    | .error e => (.error e, [.kagiSummarize url])
    | .ok summary =>
      if language_code ≠ "en" ∧ language_code ≠ "zh-tw" then
        match c.translateText summary language_code with
        | .error e =>
          (.error e, [.kagiSummarize url, .translateReq summary language_code])
        | .ok translated =>
          (c.pushResult,
           [.kagiSummarize url, .translateReq summary language_code,
            .pushMessage user_id [create_summary_bubble translated]])
      else
        (c.pushResult,
         [.kagiSummarize url,
          .pushMessage user_id [create_summary_bubble summary]])

/-! ## AI command resolver (`src/api/chatgpt.rs` lines 198-230) -/

/-- The pure normalisation step of `run_conversation` (`src/api/chatgpt.rs`
lines 204-224): a present, nonempty `tool_calls` list yields the first tool's
name and argument string; otherwise the assistant's `content` (possibly
absent) is carried over as `message`. -/
def run_conversation_normalize (m : FunctionMessage) : FunctionCallResult :=
  match m.tool_calls with
  | some tool_calls =>
    match tool_calls.head? with
    | some first_tool =>
      { name := some first_tool.function.name,
        arguments := some first_tool.function.arguments, message := none }
    | none => { name := none, arguments := none, message := m.content }
  | none => { name := none, arguments := none, message := m.content }

/-- Embeds `run_conversation` (`src/api/chatgpt.rs` lines 102-230) relative to the
AI collaborator: transport and HTTP-status failures come back from the
collaborator as errors, an empty `choices` list is an `AiError`, and any
first choice is normalized — never a parse error. -/
def run_conversation (c : Collab) (content : String) :
    Except ApiError FunctionCallResult × List Effect :=
  match c.aiChoices content with
  | .error e => (.error e, [.aiResolve content])
  | .ok choices =>
    match choices.head? with
    | none => (.error (.aiError "No choices in response"), [.aiResolve content])
    | some msg => (.ok (run_conversation_normalize msg), [.aiResolve content])

/-! ## Webhook handlers (`src/handlers/webhook.rs`) -/

/-- The argument-string handling shared by `handle_push_summary` and
`handle_push_url_summary` (`src/handlers/webhook.rs` lines 201-202, 232-233):
`function_call["arguments"].as_str().unwrap_or("{}")` then
`serde_json::from_str`.  A missing `arguments` field parses the literal
`"{}"`, which deterministically yields the empty object. -/
def parse_arguments (c : Collab) (arguments : Option String) : JArgs :=
  match arguments with
  | none => .val (.jobj [])
  | some s => c.argParse s

/-- Embeds `handle_push_summary` (`src/handlers/webhook.rs` lines 195-223).  Note:
there is no upper bound on the length of `indexes` — every non-negative
integer entry is forwarded to `push_story_summaries`. -/
def handle_push_summary (c : Collab) (channel_token user_id language_code : String)
    (function_call : FunctionCallResult) : List Effect :=
  match parse_arguments c function_call.arguments with
  | .parseFail => []
  | .val args =>
    match jval_as_array (jget args "indexes") with
    | none => []
    | some idxVals =>
      let indexes := idxVals.filterMap jval_as_u64
      if indexes.isEmpty then []
      else (push_story_summaries c channel_token user_id language_code indexes).2

/-- Embeds `handle_push_url_summary` (`src/handlers/webhook.rs` lines 226-247). -/
def handle_push_url_summary (c : Collab) (channel_token user_id language_code : String)
    (function_call : FunctionCallResult) : List Effect :=
  match parse_arguments c function_call.arguments with
  | .parseFail => []
  | .val args =>
    match jval_as_str (jget args "url") with
    | none => []
    | some url => (push_url_summary c channel_token user_id language_code url).2

/-- Embeds `handle_push_messages` (`src/handlers/webhook.rs` lines 250-258): push the
`message` field as a plain text message when it is present; otherwise do
nothing at all. -/
def handle_push_messages (c : Collab) (channel_token user_id : String)
    (function_call : FunctionCallResult) : List Effect :=
  match function_call.message with
  | some message => [.pushMessage user_id [create_text_message message]]
  | none => []

/-- Embeds `handle_reply_latest_story` (`src/handlers/webhook.rs` lines 180-192):
`get_latest_story_message` fetches the RSS feed; on success the story message
is sent through the reply channel. -/
def handle_reply_latest_story (c : Collab) (channel_token reply_token : String) :
    List Effect :=
  match c.latestStoryMessage with
  | .ok message => [.fetchFeed, .replyMessage reply_token [message]]
  | .error _ => [.fetchFeed]

/-- Embeds `function_call_handler` (`src/handlers/webhook.rs` lines 145-177): route
on the tool name; a known tool without its required context field does
nothing; an unknown or absent name falls through to `handle_push_messages`
when a `user_id` is available. -/
def function_call_handler (c : Collab) (channel_token : String)
    (reply_token user_id : Option String) (language_code : String)
    (function_call : FunctionCallResult) : List Effect :=
  match function_call.name with
  | some "reply_latest_story" =>
    match reply_token with
    | some rt => handle_reply_latest_story c channel_token rt
    | none => []
  | some "push_summary" =>
    match user_id with
    | some u => handle_push_summary c channel_token u language_code function_call
    | none => []
  | some "push_url_summary" =>
    match user_id with
    | some u => handle_push_url_summary c channel_token u language_code function_call
    | none => []
  | _ =>
    match user_id with
    | some u => handle_push_messages c channel_token u function_call
    | none => []

/-- The tail of `process_request` (`src/handlers/webhook.rs` lines 100-142)
once a nonempty message text has been extracted: detect the language (falling
back to `"en"` on error), resolve the text through the AI, abort quietly on a
transport error, and otherwise dispatch the resolved command. -/
def process_request_text (c : Collab) (channel_token : String)
    (event : LineWebhookEvent) (text : String) : List Effect :=
  let language_code :=
    match c.languageCode text with
    | .ok code => code
    | .error _ => "en"
  match run_conversation c text with
  | (.error _, eff) => .detectLanguage text :: eff
  | (.ok fc, eff) =>
    .detectLanguage text :: eff ++
      function_call_handler c channel_token event.reply_token
        event.source.user_id language_code fc

/-- Embeds `process_request` (`src/handlers/webhook.rs` lines 57-142).  The
`serde_json::from_slice` parse of the raw body is external; its outcome is
the `parsed` argument (`none` = parse failure, which only logs).  Only
`events.first()` is ever examined; non-message events and missing or empty
text end the pipeline with no effects. -/
def process_request (c : Collab) (channel_token : String)
    (parsed : Option LineWebhookRequest) : List Effect :=
  match parsed with
  | none => []
  | some webhook_request =>
    match webhook_request.events.head? with
    | none => []
    | some event =>
      if event.event_type ≠ "message" then []
      else
        match event.message with
        | none => []
        | some message =>
          match message.text with
          | some text =>
            if text.isEmpty then [] else process_request_text c channel_token event text
          | none => []

/-! ## Concrete collaborator instances used by witnesses and counterexamples -/

/-- An all-successful collaborator environment over a given story list. -/
def storyCollab (stories : List Story) : Collab :=
  { argParse := fun _ => .parseFail,
    stories := .ok stories,
    chatSummary := fun t => .ok ("summary: " ++ t),
    translateText := fun s language_code => .ok ("(" ++ language_code ++ ") " ++ s),
    kagiSummarize := fun u => .ok ("kagi: " ++ u),
    pushResult := .ok (),
    replyResult := .ok (),
    languageCode := fun _ => .ok "en",
    aiChoices := fun _ => .ok [],
    latestStoryMessage := .ok (create_text_message "Latest story: none") }

/-- A `storyCollab` variant with a serde parser that yields the given `indexes` array
for any arguments string. -/
def pushSummaryCollab (stories : List Story) (idxVals : List JVal) : Collab :=
  { storyCollab stories with
    argParse := fun _ => .val (.jobj [("indexes", .jarr idxVals)]) }

/-- A `storyCollab` variant whose AI reply is a plain assistant message `"hello"`. -/
def plainReplyCollab : Collab :=
  { storyCollab [] with
    aiChoices := fun _ => .ok [{ content := some "hello", tool_calls := none }] }

/-- A ten-story feed, index 1 the most recent. -/
def demoStories : List Story :=
  (List.range 10).map fun k =>
    { storylink := "https://news.example/" ++ toString (k + 1),
      story := "Story " ++ toString (k + 1) }

/-- A parsed `indexes` array of length six, used to exercise the absence of a
length cap. -/
def sixIdxVals : List JVal :=
  [.jnum 1, .jnum 2, .jnum 3, .jnum 4, .jnum 5, .jnum 6]

/-! ## Signature verification (`src/api/line.rs` lines 15-28)
-/

/-- Modelled from the spec: `2 ^ 32`, the modulus of the `u32` arithmetic used
by SHA-256 (the `sha2` crate is a dependency, not repository code). -/
def M32 : Nat := 4294967296

def rotr (n x : Nat) : Nat := ((x >>> n) ||| (x <<< (32 - n))) % M32

def shaCh (e f g : Nat) : Nat := (e &&& f) ^^^ ((4294967295 - e) &&& g)

def shaMaj (a b c : Nat) : Nat := (a &&& b) ^^^ (a &&& c) ^^^ (b &&& c)

def bigSigma0 (x : Nat) : Nat := rotr 2 x ^^^ rotr 13 x ^^^ rotr 22 x

def bigSigma1 (x : Nat) : Nat := rotr 6 x ^^^ rotr 11 x ^^^ rotr 25 x

def smallSigma0 (x : Nat) : Nat := rotr 7 x ^^^ rotr 18 x ^^^ (x >>> 3)

def smallSigma1 (x : Nat) : Nat := rotr 17 x ^^^ rotr 19 x ^^^ (x >>> 10)

/-- The 64 SHA-256 round constants (FIPS 180-4). -/
def shaK : List Nat :=
  [1116352408, 1899447441, 3049323471, 3921009573, 961987163, 1508970993,
   2453635748, 2870763221, 3624381080, 310598401, 607225278, 1426881987,
   1925078388, 2162078206, 2614888103, 3248222580, 3835390401, 4022224774,
   264347078, 604807628, 770255983, 1249150122, 1555081692, 1996064986,
   2554220882, 2821834349, 2952996808, 3210313671, 3336571891, 3584528711,
   113926993, 338241895, 666307205, 773529912, 1294757372, 1396182291,
   1695183700, 1986661051, 2177026350, 2456956037, 2730485921, 2820302411,
   3259730800, 3345764771, 3516065817, 3600352804, 4094571909, 275423344,
   430227734, 506948616, 659060556, 883997877, 958139571, 1322822218,
   1537002063, 1747873779, 1955562222, 2024104815, 2227730452, 2361852424,
   2428436474, 2756734187, 3204031479, 3329325298]

/-- The eight 32-bit working variables of SHA-256. -/
structure ShaState where
  a : Nat
  b : Nat
  c : Nat
  d : Nat
  e : Nat
  f : Nat
  g : Nat
  h : Nat

def shaInit : ShaState :=
  ⟨1779033703, 3144134277, 1013904242, 2773480762, 1359893119, 2600822924, 528734635, 1541459225⟩

def shaPadTail (len : Nat) : List Nat :=
  let L := len * 8
  128 :: List.replicate ((64 - (len + 9) % 64) % 64) 0 ++
    [L / 2 ^ 56 % 256, L / 2 ^ 48 % 256, L / 2 ^ 40 % 256, L / 2 ^ 32 % 256,
     L / 2 ^ 24 % 256, L / 2 ^ 16 % 256, L / 2 ^ 8 % 256, L % 256]

/-- FIPS 180-4 message padding: `0x80`, zeros to 56 mod 64, then the bit
length as eight big-endian bytes. -/
def shaPad (msg : List Nat) : List Nat := msg ++ shaPadTail msg.length

def toBlocks : Nat → List Nat → List (List Nat)
  | 0, _ => []
  | _ + 1, [] => []
  | fuel + 1, l => l.take 64 :: toBlocks fuel (l.drop 64)

def bytesToWords : List Nat → List Nat
  | b0 :: b1 :: b2 :: b3 :: rest =>
    (((b0 * 256 + b1) * 256 + b2) * 256 + b3) :: bytesToWords rest
  | _ => []

def extendSchedule : Nat → List Nat → List Nat
  | 0, w => w
  | n + 1, w =>
    let l := w.length
    let x := (smallSigma1 (w.getD (l - 2) 0) + w.getD (l - 7) 0
              + smallSigma0 (w.getD (l - 15) 0) + w.getD (l - 16) 0) % M32
    extendSchedule n (w ++ [x])

def shaSchedule (block : List Nat) : List Nat := extendSchedule 48 (bytesToWords block)

def shaRound (s : ShaState) (wk : Nat × Nat) : ShaState :=
  let t1 := (s.h + bigSigma1 s.e + shaCh s.e s.f s.g + wk.2 + wk.1) % M32
  let t2 := (bigSigma0 s.a + shaMaj s.a s.b s.c) % M32
  { a := (t1 + t2) % M32, b := s.a, c := s.b, d := s.c,
    e := (s.d + t1) % M32, f := s.e, g := s.f, h := s.g }

def shaCompress (s : ShaState) (block : List Nat) : ShaState :=
  let t := ((shaSchedule block).zip shaK).foldl shaRound s
  { a := (s.a + t.a) % M32, b := (s.b + t.b) % M32, c := (s.c + t.c) % M32,
    d := (s.d + t.d) % M32, e := (s.e + t.e) % M32, f := (s.f + t.f) % M32,
    g := (s.g + t.g) % M32, h := (s.h + t.h) % M32 }

def wordBytes (w : Nat) : List Nat :=
  [w / 2 ^ 24 % 256, w / 2 ^ 16 % 256, w / 2 ^ 8 % 256, w % 256]

def shaStateBytes (s : ShaState) : List Nat :=
  wordBytes s.a ++ wordBytes s.b ++ wordBytes s.c ++ wordBytes s.d ++
  wordBytes s.e ++ wordBytes s.f ++ wordBytes s.g ++ wordBytes s.h

/-- Modelled from the spec: SHA-256 over a byte list (FIPS 180-4), the hash
the `sha2` crate computes.  Matches the standard test vectors. -/
def sha256 (msg : List Nat) : List Nat :=
  let padded := shaPad msg
  shaStateBytes ((toBlocks padded.length padded).foldl shaCompress shaInit)

/-- Modelled from the spec: HMAC-SHA256 (RFC 2104) as computed by the `hmac`
crate: hash an over-long key, zero-pad to the 64-byte block, inner hash with
the `0x36` pad, outer hash with the `0x5c` pad.  Matches the RFC test
vectors. -/
def hmacSha256 (key msg : List Nat) : List Nat :=
  let k0 := if 64 < key.length then sha256 key else key
  let kp := k0 ++ List.replicate (64 - k0.length) 0
  let inner := sha256 ((kp.map fun b => b ^^^ 54) ++ msg)
  sha256 ((kp.map fun b => b ^^^ 92) ++ inner)

/-- The standard base64 alphabet (value 0-63 to ASCII code). -/
def b64chr (i : Nat) : Nat :=
  if i < 26 then 65 + i
  else if i < 52 then 97 + (i - 26)
  else if i < 62 then 48 + (i - 52)
  else if i = 62 then 43
  else 47

/-- Inverse of the standard base64 alphabet (ASCII code to value; alien
characters map to 0 and are caught by the canonicality check of
`b64decode`). -/
def b64val (c : Nat) : Nat :=
  if 65 ≤ c ∧ c ≤ 90 then c - 65
  else if 97 ≤ c ∧ c ≤ 122 then c - 97 + 26
  else if 48 ≤ c ∧ c ≤ 57 then c - 48 + 52
  else if c = 43 then 62
  else if c = 47 then 63
  else 0

/-- Modelled from the spec: standard base64 encoding with padding, as the
`base64` crate engine `general_purpose::STANDARD` produces. -/
def b64encode : List Nat → List Nat
  | [] => []
  | [a] => [b64chr (a / 4), b64chr (a % 4 * 16), 61, 61]
  | [a, b] => [b64chr (a / 4), b64chr (a % 4 * 16 + b / 16), b64chr (b % 16 * 4), 61]
  | a :: b :: c :: rest =>
    b64chr (a / 4) :: b64chr (a % 4 * 16 + b / 16) :: b64chr (b % 16 * 4 + c / 64)
      :: b64chr (c % 64) :: b64encode rest

/-- The chunkwise base64 decoding pass: four characters to three bytes, with
the padded final chunk yielding one or two bytes. -/
def b64rawDecode : List Nat → List Nat
  | c1 :: c2 :: c3 :: c4 :: rest =>
    if c4 = 61 then
      if c3 = 61 then [b64val c1 * 4 + b64val c2 / 16]
      else [b64val c1 * 4 + b64val c2 / 16, b64val c2 % 16 * 16 + b64val c3 / 4]
    else
      (b64val c1 * 4 + b64val c2 / 16) ::
      (b64val c2 % 16 * 16 + b64val c3 / 4) ::
      (b64val c3 % 4 * 64 + b64val c4) :: b64rawDecode rest
  | _ => []

/-- Modelled from the spec: `general_purpose::STANDARD.decode`.  That engine
requires canonical padding and rejects nonzero trailing bits, so it succeeds
exactly on the canonical encoding of some byte sequence and returns that
sequence; this is expressed by decoding and checking that re-encoding
reproduces the input. -/
def b64decode (s : List Nat) : Option (List Nat) :=
  let bytes := b64rawDecode s
  if b64encode bytes = s then some bytes else none

/-- Modelled from the spec: the `subtle` crate byte `ct_eq` used by
`Mac::verify_slice`: xor the bytes, `or` with the wrapping negation, shift
the sign bit down and invert — 1 when the bytes are equal and 0 otherwise,
computed without branching. -/
def ctEqByte (x y : Nat) : Nat :=
  (((x ^^^ y) ||| ((256 - (x ^^^ y)) % 256)) >>> 7) ^^^ 1

/-- Modelled from the spec: the `subtle` slice `ct_eq` fold used by
`Mac::verify_slice` — every byte pair is combined with bitwise and, with no
early exit.  The second component counts the byte comparisons performed, so
that content-independence of the running time is expressible. -/
def ctEqAux : List Nat → List Nat → Nat × Nat
  | x :: xs, y :: ys =>
    let r := ctEqAux xs ys
    (ctEqByte x y &&& r.1, r.2 + 1)
  | _, _ => (1, 0)

/-- Embeds `validate_signature` (`src/api/line.rs` lines 15-28): compute the
HMAC-SHA256 of the body under the channel secret (`new_from_slice` cannot
fail for HMAC, which accepts any key length, so that error arm is dead),
base64-decode the presented signature, and `verify_slice` it against the MAC:
a length check against the 32-byte output size followed by the constant-time
comparison.  Decode failure and MAC mismatch both yield
`ValidationError "Invalid signature"`. -/
def validate_signature (channel_secret signature body : List Nat) :
    Except ApiError Unit :=
  match b64decode signature with
  | none => .error (.validationError "Invalid signature")
  | some signature_bytes =>
    if signature_bytes.length = (hmacSha256 channel_secret body).length ∧
       (ctEqAux (hmacSha256 channel_secret body) signature_bytes).1 = 1 then .ok ()
    else .error (.validationError "Invalid signature")


/-- The status and JSON body of the webhook HTTP response
(`warp::reply::with_status` of `src/handlers/webhook.rs`). -/
structure WebhookResponse where
  status : Nat
  success : Bool
  error : Option String
deriving DecidableEq, Repr

/-- Embeds `parse_request_handler` (`src/handlers/webhook.rs` lines 11-40):
validate the signature first; on success answer `200` with `success: true`
and spawn `process_request` on a clone of the raw body as a detached task
(the second component carries the spawned task's body, `none` meaning no task
was spawned); on failure only log and answer `401` with `success: false` and
`error: "Invalid signature"` — no task, no body parse, no downstream call. -/
def parse_request_handler (channel_secret signature body : List Nat) :
    WebhookResponse × Option (List Nat) :=
  match validate_signature channel_secret signature body with
  | .ok _ => ({ status := 200, success := true, error := none }, some body)
  | .error _ =>
    ({ status := 401, success := false, error := some "Invalid signature" }, none)

/-! ## Theorems about the retry executor (claims C3 and C6) -/

/-- Claim C3: the claim says a non-transient (non-network) failure is returned
immediately after the first invocation, with no retry.  The code does not do
this: `Retry::spawn` ignores the `"retryable"`/`"non-retryable"`
classification, so (first conjunct) an operation that always fails with a
non-transient `ValidationError` is invoked 5 times — 1 initial + 3 retries
inside the loop + 1 final re-invocation — and (second conjunct) an operation
whose first invocation fails with a `ValidationError` but whose second
succeeds is retried and returns the success after 2 invocations. -/
theorem with_retry_retries_nontransient :
    with_retry (fun _ => (.error (.validationError "boom") : Except ApiError Unit))
      = (.error (.validationError "boom"), 5) ∧
    with_retry (fun k =>
        if k = 0 then (.error (.validationError "boom") : Except ApiError Unit)
        else .ok ())
      = (.ok (), 2) := by
  constructor <;> rfl

/-- Claim C6 (counterexample): with an operation that always fails, the number
of invocations performed by `with_retry` is `create_retry_strategy.length + 2`
= 5: one more than the `1 + 3` attempts of the configured retry loop, because
after the loop is exhausted `with_retry` invokes the operation one extra time
to recover the typed error.  This refutes "no invocation occurs beyond the
configured attempts". -/
theorem with_retry_extra_invocation :
    with_retry (fun _ => (.error (.aiError "down") : Except ApiError Nat))
      = (.error (.aiError "down"), create_retry_strategy.length + 2) := by
  rfl

/-- Claim C6 (amended): when the first `create_retry_strategy.length + 1 = 4`
invocations all fail, `with_retry` performs exactly one further invocation of
the operation and returns that final invocation's result verbatim — the
original error of the final real attempt, never a synthetic
"retries exhausted" error — for a total of 5 invocations. -/
theorem with_retry_surfaces_final_attempt {α : Type}
    (op : Nat → Except ApiError α)
    (h : ∀ k, k < create_retry_strategy.length + 1 → ∃ e, op k = .error e) :
    with_retry op = (op (create_retry_strategy.length + 1),
                     create_retry_strategy.length + 2) := by
  obtain ⟨e0, h0⟩ := h 0 (by simp [create_retry_strategy])
  obtain ⟨e1, h1⟩ := h 1 (by simp [create_retry_strategy])
  obtain ⟨e2, h2⟩ := h 2 (by simp [create_retry_strategy])
  obtain ⟨e3, h3⟩ := h 3 (by simp [create_retry_strategy])
  simp [with_retry, retry_spawn, create_retry_strategy, h0, h1, h2, h3]

/-- Witness for `with_retry_surfaces_final_attempt` at a concrete
always-failing operation. -/
theorem with_retry_surfaces_final_attempt_witness :
    with_retry (fun _ => (.error (.externalServiceError "LINE API error: x") :
        Except ApiError Nat))
      = (.error (.externalServiceError "LINE API error: x"), 5) := by
  have h := with_retry_surfaces_final_attempt
    (fun _ => (.error (.externalServiceError "LINE API error: x") :
        Except ApiError Nat))
    (fun k _ => ⟨.externalServiceError "LINE API error: x", rfl⟩)
  simpa [create_retry_strategy] using h

/-! ## Helper lemmas about the index filter -/

/-- When every index is in `[1, story_count]`, the filter keeps exactly one
story per index, in list order: the selected list has the same length and its
`k`-th entry is the story at position `idxs[k] - 1`. -/
theorem selectStories_spec (stories : List Story) (idxs : List Nat)
    (h : ∀ i ∈ idxs, 0 < i ∧ i ≤ stories.length) :
    (selectStories stories idxs).length = idxs.length ∧
    ∀ k, (selectStories stories idxs).get? k
        = (idxs.get? k).bind fun i => stories.get? (i - 1) := by
  induction idxs with
  | nil => exact ⟨rfl, fun k => by simp [selectStories]⟩
  | cons i rest ih =>
    obtain ⟨hi0, hile⟩ := h i (by simp)
    have hlt : i - 1 < stories.length := by omega
    have hst : stories.get? (i - 1) = some (stories.get ⟨i - 1, hlt⟩) :=
      List.get?_eq_get hlt
    have hif : (if 0 < i ∧ i ≤ stories.length then stories.get? (i - 1) else none)
        = some (stories.get ⟨i - 1, hlt⟩) := by
      rw [if_pos ⟨hi0, hile⟩, hst]
    have hrest := ih (fun j hj => h j (by simp [hj]))
    have hcons : selectStories stories (i :: rest)
        = stories.get ⟨i - 1, hlt⟩ :: selectStories stories rest := by
      simp only [selectStories, List.filterMap_cons, hif]
    refine ⟨by simp [hcons, hrest.1], fun k => ?_⟩
    match k with
    | 0 => simp [hcons, hst]
    | Nat.succ k => simpa [hcons] using hrest.2 k

/-- Skipping invalid indexes is the same as filtering them away first. -/
theorem selectStories_filter (stories : List Story) (idxs : List Nat) :
    selectStories stories idxs
      = selectStories stories
          (idxs.filter fun i => decide (0 < i ∧ i ≤ stories.length)) := by
  induction idxs with
  | nil => rfl
  | cons i rest ih =>
    by_cases hi : 0 < i ∧ i ≤ stories.length
    · simp only [selectStories, List.filterMap_cons, List.filter_cons] at ih ⊢
      rw [if_pos hi, if_pos (by simpa using hi)]
      simp only [List.filterMap_cons]
      rw [if_pos hi]
      cases stories.get? (i - 1) <;> simp <;> simpa using ih
    · simp only [selectStories, List.filterMap_cons, List.filter_cons] at ih ⊢
      rw [if_neg hi, if_neg (by simpa using hi)]
      exact ih

/-- A list containing at least one valid index selects at least one story. -/
theorem selectStories_ne_nil (stories : List Story) (idxs : List Nat)
    (h : ∃ i ∈ idxs, 0 < i ∧ i ≤ stories.length) :
    selectStories stories idxs ≠ [] := by
  obtain ⟨i, hmem, hi0, hile⟩ := h
  have hlt : i - 1 < stories.length := by omega
  have hif : (if 0 < i ∧ i ≤ stories.length then stories.get? (i - 1) else none)
      = some (stories.get ⟨i - 1, hlt⟩) := by
    rw [if_pos ⟨hi0, hile⟩, List.get?_eq_get hlt]
  intro hempty
  have hmem2 : stories.get ⟨i - 1, hlt⟩ ∈ selectStories stories idxs :=
    List.mem_filterMap.mpr ⟨i, hmem, hif⟩
  simp [hempty] at hmem2

/-! ## Claim theorems: dispatch pipeline -/

/-- Claim C10: `process_request` examines only `events.first()`; a webhook
request whose events list is `e :: rest` produces exactly the effects of the
request containing `e` alone — in particular, the text of every later event
is never sent to the AI resolver and no delivery is made on its behalf. -/
theorem process_request_first_event_only (c : Collab) (channel_token : String)
    (e : LineWebhookEvent) (rest : List LineWebhookEvent) :
    process_request c channel_token (some ⟨e :: rest⟩)
      = process_request c channel_token (some ⟨[e]⟩) := rfl

/-- Claim C8: `is_valid_url` accepts `https://example.com/path` and rejects
`ftp://example.com`, `not a url` and the host-less `http://`; and for every
URL it rejects, `push_url_summary` fails with a `ValidationError` and
performs zero downstream calls, whatever the collaborators would answer. -/
theorem is_valid_url_c8 :
    is_valid_url "https://example.com/path" = true ∧
    is_valid_url "ftp://example.com" = false ∧
    is_valid_url "not a url" = false ∧
    is_valid_url "http://" = false ∧
    ∀ (c : Collab) (token user_id language_code url : String),
      is_valid_url url = false →
      push_url_summary c token user_id language_code url
        = (.error (.validationError "Invalid URL provided"), []) := by
  refine ⟨rfl, rfl, rfl, rfl, ?_⟩
  intro c token user_id language_code url h
  simp [push_url_summary, h]

/-- Witness for `is_valid_url_c8` at the rejected URL `ftp://example.com`. -/
theorem is_valid_url_c8_witness :
    push_url_summary (storyCollab demoStories) "tok" "U1" "en" "ftp://example.com"
      = (.error (.validationError "Invalid URL provided"), []) :=
  is_valid_url_c8.2.2.2.2 _ _ _ _ _ rfl

/-- Claim C5 (counterexample): an index list whose only entry is out of range
(`[11]` against the ten-story feed) is not "skipped without making the
operation fail" — `push_story_summaries` fails with
`ValidationError "No valid stories selected"`. -/
theorem push_story_summaries_all_invalid_fails :
    (push_story_summaries (storyCollab demoStories) "tok" "U1" "en" [11]).1
      = .error (.validationError "No valid stories selected") := by rfl

/-- Claim C5 (amended): for an index list of length ≤ 5 with every entry in
`[1, story_count]`, `push_story_summaries` selects exactly one story per
index in list order (same length, `k`-th selected story = story at
`idxs[k] - 1`), formats them into one aggregate, obtains one summary and
delivers one push; and for any list that still contains at least one
in-range entry, out-of-range entries are skipped exactly as if filtered
away, and the operation succeeds.  (A list with no in-range entry fails —
see the counterexample.) -/
theorem push_story_summaries_per_index (stories : List Story) (idxs : List Nat)
    (token user_id : String)
    (hlen : idxs.length ≤ 5)
    (hall : ∀ i ∈ idxs, 0 < i ∧ i ≤ stories.length)
    (hne : idxs ≠ []) :
    ((selectStories stories idxs).length = idxs.length ∧
     ∀ k, (selectStories stories idxs).get? k
         = (idxs.get? k).bind fun i => stories.get? (i - 1)) ∧
    push_story_summaries (storyCollab stories) token user_id "en" idxs
      = (.ok (), [.fetchStories,
                  .chatSummary (formatStories (selectStories stories idxs)),
                  .pushMessage user_id [create_summary_bubble
                    ("summary: " ++ formatStories (selectStories stories idxs))]]) ∧
    ∀ (idxs2 : List Nat), (∃ i ∈ idxs2, 0 < i ∧ i ≤ stories.length) →
      selectStories stories idxs2
        = selectStories stories
            (idxs2.filter fun i => decide (0 < i ∧ i ≤ stories.length)) ∧
      (push_story_summaries (storyCollab stories) token user_id "en" idxs2).1
        = .ok () := by
  refine ⟨selectStories_spec stories idxs hall, ?_, ?_⟩
  · have hsel : selectStories stories idxs ≠ [] := by
      apply selectStories_ne_nil
      obtain ⟨i, hi⟩ := List.exists_mem_of_ne_nil idxs hne
      exact ⟨i, hi, hall i hi⟩
    simp [push_story_summaries, storyCollab, hsel]
  · intro idxs2 hex
    have hsel2 := selectStories_ne_nil stories idxs2 hex
    exact ⟨selectStories_filter stories idxs2,
      by simp [push_story_summaries, storyCollab, hsel2]⟩

/-- Witness for `push_story_summaries_per_index` at the in-range list
`[2, 1, 3]` over the ten-story demo feed. -/
theorem push_story_summaries_per_index_witness :
    push_story_summaries (storyCollab demoStories) "tok" "U1" "en" [2, 1, 3]
      = (.ok (), [.fetchStories,
                  .chatSummary (formatStories (selectStories demoStories [2, 1, 3])),
                  .pushMessage "U1" [create_summary_bubble
                    ("summary: " ++ formatStories (selectStories demoStories [2, 1, 3]))]]) :=
  (push_story_summaries_per_index demoStories [2, 1, 3] "tok" "U1"
    (by decide) (by decide) (by decide)).2.1

/-- Claim C4 (counterexample): a `push_summary` tool call whose `indexes`
array has six entries is not rejected — no `TooManyIndexes` error exists in
the code — and downstream calls do occur: the feed is fetched, all six
stories are formatted and summarized, and the summary is delivered. -/
theorem push_summary_six_indexes_processed :
    handle_push_summary (pushSummaryCollab demoStories sixIdxVals) "tok" "U1" "en"
      { name := some "push_summary",
        arguments := some "\x7b\"indexes\": [1, 2, 3, 4, 5, 6]\x7d",
        message := none }
      = [.fetchStories,
         .chatSummary (formatStories (selectStories demoStories [1, 2, 3, 4, 5, 6])),
         .pushMessage "U1" [create_summary_bubble
           ("summary: " ++ formatStories (selectStories demoStories [1, 2, 3, 4, 5, 6]))]] ∧
    handle_push_summary (pushSummaryCollab demoStories sixIdxVals) "tok" "U1" "en"
      { name := some "push_summary",
        arguments := some "\x7b\"indexes\": [1, 2, 3, 4, 5, 6]\x7d",
        message := none } ≠ [] := by
  constructor
  · rfl
  · decide

/-- Claim C4 (amended): command resolution applies no length limit at all —
for every parsed `indexes` array (of any length) whose non-negative integer
entries are in range and nonempty, `handle_push_summary` forwards all of them
and the full downstream chain runs: feed fetch, one aggregate summarization
over every index, one delivery.  The five-element cap exists only in the tool
description text sent to the AI. -/
theorem handle_push_summary_no_length_limit (stories : List Story) (idxVals : List JVal)
    (channel_token user_id args : String)
    (hne : idxVals.filterMap jval_as_u64 ≠ [])
    (hall : ∀ i ∈ idxVals.filterMap jval_as_u64, 0 < i ∧ i ≤ stories.length) :
    handle_push_summary (pushSummaryCollab stories idxVals) channel_token user_id "en"
      { name := some "push_summary", arguments := some args, message := none }
      = [.fetchStories,
         .chatSummary (formatStories (selectStories stories (idxVals.filterMap jval_as_u64))),
         .pushMessage user_id [create_summary_bubble
           ("summary: " ++ formatStories
             (selectStories stories (idxVals.filterMap jval_as_u64)))]] := by
  have hx : ∃ i ∈ idxVals.filterMap jval_as_u64, 0 < i ∧ i ≤ stories.length := by
    obtain ⟨i, hi⟩ := List.exists_mem_of_ne_nil _ hne
    exact ⟨i, hi, hall i hi⟩
  have hsel := selectStories_ne_nil stories _ hx
  simp [handle_push_summary, parse_arguments, pushSummaryCollab, storyCollab,
        jget, jval_as_array, hne, push_story_summaries, hsel]

/-- Witness for `handle_push_summary_no_length_limit` at the six-element
index array. -/
theorem handle_push_summary_no_length_limit_witness :
    handle_push_summary (pushSummaryCollab demoStories sixIdxVals) "tok" "U2" "en"
      { name := some "push_summary", arguments := some "args", message := none }
      = [.fetchStories,
         .chatSummary (formatStories
           (selectStories demoStories (sixIdxVals.filterMap jval_as_u64))),
         .pushMessage "U2" [create_summary_bubble
           ("summary: " ++ formatStories
             (selectStories demoStories (sixIdxVals.filterMap jval_as_u64)))]] :=
  handle_push_summary_no_length_limit demoStories sixIdxVals "tok" "U2" "args"
    (by decide) (by decide)

/-- Claim C7 (counterexample): an AI reply that is a plain message with *no*
text (no `tool_calls`, no `content`) does not degrade to a
`PushPlainMessage` carrying `"no message available"` — the normalized result
has no `message` field at all and the dispatcher delivers nothing. -/
theorem no_text_reply_delivers_nothing :
    run_conversation_normalize { content := none, tool_calls := none }
      = { name := none, arguments := none, message := none } ∧
    function_call_handler (storyCollab demoStories) "tok" (some "R1") (some "U1") "en"
      (run_conversation_normalize { content := none, tool_calls := none }) = [] :=
  ⟨rfl, rfl⟩

/-- Claim C7 (amended): a plain-message reply *with* text degrades to a plain
text push of exactly that text and never to a hard parse error (the resolver
normalizes every first choice without failing); but when the reply carries no
text, or when a known tool call's argument string fails to parse, the
pipeline silently delivers nothing — there is no `"no message available"`
fallback anywhere in the live code. -/
theorem plain_message_degrades (c : Collab)
    (channel_token reply_token user_id language_code text s : String) :
    function_call_handler c channel_token (some reply_token) (some user_id)
        language_code
        (run_conversation_normalize { content := some text, tool_calls := none })
      = [.pushMessage user_id [create_text_message text]] ∧
    function_call_handler c channel_token (some reply_token) (some user_id)
        language_code
        (run_conversation_normalize { content := none, tool_calls := none })
      = [] ∧
    (c.argParse s = .parseFail →
      function_call_handler c channel_token (some reply_token) (some user_id)
          language_code
          { name := some "push_summary", arguments := some s, message := none }
        = []) ∧
    ∀ (msg : FunctionMessage) (more : List FunctionMessage),
      c.aiChoices text = .ok (msg :: more) →
      (run_conversation c text).1 = .ok (run_conversation_normalize msg) := by
  refine ⟨rfl, rfl, ?_, ?_⟩
  · intro h
    simp [function_call_handler, handle_push_summary, parse_arguments, h]
  · intro msg more h
    simp [run_conversation, h]

/-- Witness for `plain_message_degrades` with the concrete plain reply
`"hello"`, an unparseable `push_summary` argument string, and an AI resolver
returning one plain choice. -/
theorem plain_message_degrades_witness :
    function_call_handler plainReplyCollab "tok" (some "R1") (some "U1") "en"
        (run_conversation_normalize { content := some "hello", tool_calls := none })
      = [.pushMessage "U1" [create_text_message "hello"]] ∧
    function_call_handler plainReplyCollab "tok" (some "R1") (some "U1") "en"
        { name := some "push_summary", arguments := some "oops", message := none }
      = [] ∧
    (run_conversation plainReplyCollab "hello").1
      = .ok (run_conversation_normalize { content := some "hello", tool_calls := none }) :=
  ⟨(plain_message_degrades plainReplyCollab "tok" "R1" "U1" "en" "hello" "oops").1,
   (plain_message_degrades plainReplyCollab "tok" "R1" "U1" "en" "hello" "oops").2.2.1 rfl,
   (plain_message_degrades plainReplyCollab "tok" "R1" "U1" "en" "hello" "oops").2.2.2
     { content := some "hello", tool_calls := none } [] rfl⟩

/-! ## Claim theorems: signature verification -/

theorem b64val_chr : ∀ i, i < 64 → b64val (b64chr i) = i := by decide

theorem b64chr_ne_61 : ∀ i, i < 64 → b64chr i ≠ 61 := by decide

theorem b64rawDecode_encode :
    ∀ (bs : List Nat), (∀ x ∈ bs, x < 256) → b64rawDecode (b64encode bs) = bs
  | [], _ => by simp [b64encode, b64rawDecode]
  | [a], h => by
    have ha : a < 256 := h a (by simp)
    have h1 : b64val (b64chr (a / 4)) = a / 4 := b64val_chr _ (by omega)
    have h2 : b64val (b64chr (a % 4 * 16)) = a % 4 * 16 := b64val_chr _ (by omega)
    simp [b64encode, b64rawDecode, h1, h2]
    omega
  | [a, b], h => by
    have ha : a < 256 := h a (by simp)
    have hb : b < 256 := h b (by simp)
    have h1 : b64val (b64chr (a / 4)) = a / 4 := b64val_chr _ (by omega)
    have h2 : b64val (b64chr (a % 4 * 16 + b / 16)) = a % 4 * 16 + b / 16 :=
      b64val_chr _ (by omega)
    have h3 : b64val (b64chr (b % 16 * 4)) = b % 16 * 4 := b64val_chr _ (by omega)
    have hne : b64chr (b % 16 * 4) ≠ 61 := b64chr_ne_61 _ (by omega)
    simp [b64encode, b64rawDecode, h1, h2, h3, hne]
    omega
  | a :: b :: c :: rest, h => by
    have ha : a < 256 := h a (by simp)
    have hb : b < 256 := h b (by simp)
    have hc : c < 256 := h c (by simp)
    have h1 : b64val (b64chr (a / 4)) = a / 4 := b64val_chr _ (by omega)
    have h2 : b64val (b64chr (a % 4 * 16 + b / 16)) = a % 4 * 16 + b / 16 :=
      b64val_chr _ (by omega)
    have h3 : b64val (b64chr (b % 16 * 4 + c / 64)) = b % 16 * 4 + c / 64 :=
      b64val_chr _ (by omega)
    have h4 : b64val (b64chr (c % 64)) = c % 64 := b64val_chr _ (by omega)
    have hne : b64chr (c % 64) ≠ 61 := b64chr_ne_61 _ (by omega)
    have ih := b64rawDecode_encode rest (fun x hx => h x (by simp [hx]))
    simp [b64encode, b64rawDecode, h1, h2, h3, h4, hne]
    exact ⟨by omega, by omega, by omega, ih⟩

theorem b64decode_encode (bs : List Nat) (h : ∀ x ∈ bs, x < 256) :
    b64decode (b64encode bs) = some bs := by
  simp [b64decode, b64rawDecode_encode bs h]

theorem b64decode_some (s bs : List Nat) (h : b64decode s = some bs) :
    b64encode bs = s := by
  unfold b64decode at h
  by_cases he : b64encode (b64rawDecode s) = s
  · simp [he] at h
    rw [← h]
    exact he
  · simp [he] at h

theorem b64val_lt (c : Nat) : b64val c < 64 := by
  unfold b64val
  split_ifs <;> omega

theorem b64rawDecode_lt : ∀ (s : List Nat), ∀ x ∈ b64rawDecode s, x < 256
  | c1 :: c2 :: c3 :: c4 :: rest => by
    have v1 := b64val_lt c1
    have v2 := b64val_lt c2
    have v3 := b64val_lt c3
    have v4 := b64val_lt c4
    have ih := b64rawDecode_lt rest
    intro x hx
    by_cases h4 : c4 = 61
    · by_cases h3 : c3 = 61
      · simp [b64rawDecode, h4, h3] at hx
        omega
      · simp [b64rawDecode, h4, h3] at hx
        rcases hx with hx | hx <;> omega
    · simp [b64rawDecode, h4] at hx
      rcases hx with hx | hx | hx | hx
      · omega
      · omega
      · omega
      · exact ih x hx
  | [] => by simp [b64rawDecode]
  | [c1] => by simp [b64rawDecode]
  | [c1, c2] => by simp [b64rawDecode]
  | [c1, c2, c3] => by simp [b64rawDecode]

theorem b64decode_raw (s bs : List Nat) (h : b64decode s = some bs) :
    bs = b64rawDecode s := by
  unfold b64decode at h
  by_cases he : b64encode (b64rawDecode s) = s
  · simp [he] at h
    exact h.symm
  · simp [he] at h

theorem wordBytes_lt (w : Nat) : ∀ x ∈ wordBytes w, x < 256 := by
  simp [wordBytes]
  omega

theorem shaStateBytes_length (s : ShaState) : (shaStateBytes s).length = 32 := rfl

theorem shaStateBytes_lt (s : ShaState) : ∀ x ∈ shaStateBytes s, x < 256 := by
  intro x hx
  simp [shaStateBytes] at hx
  rcases hx with hx | hx | hx | hx | hx | hx | hx | hx <;>
    exact wordBytes_lt _ x hx

theorem sha256_length (m : List Nat) : (sha256 m).length = 32 := by
  simp only [sha256]
  exact shaStateBytes_length _

theorem sha256_lt (m : List Nat) : ∀ x ∈ sha256 m, x < 256 := by
  simp only [sha256]
  exact shaStateBytes_lt _

theorem hmacSha256_length (key msg : List Nat) : (hmacSha256 key msg).length = 32 := by
  simp only [hmacSha256]
  exact sha256_length _

theorem hmacSha256_lt (key msg : List Nat) : ∀ x ∈ hmacSha256 key msg, x < 256 := by
  simp only [hmacSha256]
  exact sha256_lt _

theorem ctEqByte_self (x : Nat) : ctEqByte x x = 1 := by
  simp [ctEqByte]

theorem ctEqByte_ne (x y : Nat) (hx : x < 256) (hy : y < 256) (hne : x ≠ y) :
    ctEqByte x y = 0 := by
  have hz0 : x ^^^ y ≠ 0 := Nat.xor_ne_zero.mpr hne
  have hzlt : x ^^^ y < 256 := by
    have := Nat.xor_lt_two_pow (n := 8) (by simpa using hx) (by simpa using hy)
    simpa using this
  have hmlt : 256 - (x ^^^ y) < 256 := by omega
  have hm : (256 - (x ^^^ y)) % 256 = 256 - (x ^^^ y) := Nat.mod_eq_of_lt hmlt
  have hwlt : ((x ^^^ y) ||| (256 - (x ^^^ y))) < 256 := by
    have := Nat.or_lt_two_pow (n := 8) (by simpa using hzlt)
      (Nat.lt_of_lt_of_le hmlt (by norm_num))
    simpa using this
  have hone : Nat.testBit ((x ^^^ y) ||| (256 - (x ^^^ y))) 7 = true := by
    rw [Nat.testBit_lor]
    rcases (by omega : 128 ≤ x ^^^ y ∨ 128 ≤ 256 - (x ^^^ y)) with hb | hb
    · have h1 : Nat.testBit (x ^^^ y) 7 = true := by
        simp only [Nat.testBit_to_div_mod]
        norm_num
        omega
      simp [h1]
    · have h1 : Nat.testBit (256 - (x ^^^ y)) 7 = true := by
        simp only [Nat.testBit_to_div_mod]
        norm_num
        omega
      simp [h1]
  have hdiv : ((x ^^^ y) ||| (256 - (x ^^^ y))) / 128 = 1 := by
    simp only [Nat.testBit_to_div_mod] at hone
    norm_num at hone
    omega
  unfold ctEqByte
  rw [hm, Nat.shiftRight_eq_div_pow]
  norm_num
  rw [hdiv]

theorem ctEqByte_facts :
    ∀ x, x < 256 → ∀ y, y < 256 → ctEqByte x y ≤ 1 ∧ (ctEqByte x y = 1 → x = y) := by
  intro x hx y hy
  by_cases hxy : x = y
  · subst hxy
    simp [ctEqByte_self]
  · simp [ctEqByte_ne x y hx hy hxy, hxy]

theorem ctEqAux_self : ∀ (xs : List Nat), (ctEqAux xs xs).1 = 1
  | [] => rfl
  | x :: xs => by
    have ih := ctEqAux_self xs
    simp [ctEqAux, ctEqByte_self, ih]

theorem ctEqAux_le_one : ∀ (xs ys : List Nat), (ctEqAux xs ys).1 ≤ 1
  | x :: xs, y :: ys => by
    have ih := ctEqAux_le_one xs ys
    simp only [ctEqAux]
    rcases Nat.le_one_iff_eq_zero_or_eq_one.mp ih with h | h <;> simp [h] <;> omega
  | [], _ => by simp [ctEqAux]
  | _ :: _, [] => by simp [ctEqAux]

theorem ctEqAux_sound :
    ∀ (xs ys : List Nat), (∀ x ∈ xs, x < 256) → (∀ y ∈ ys, y < 256) →
      xs.length = ys.length → (ctEqAux xs ys).1 = 1 → xs = ys
  | [], [], _, _, _, _ => rfl
  | x :: xs, y :: ys, hx, hy, hlen, h => by
    have hf := ctEqByte_facts x (hx x (by simp)) y (hy y (by simp))
    have hle := ctEqAux_le_one xs ys
    simp only [ctEqAux] at h
    have hb : ctEqByte x y = 0 ∨ ctEqByte x y = 1 := by omega
    rcases hb with hb | hb
    · rw [hb] at h
      simp at h
    · have hxy := hf.2 hb
      rw [hb] at h
      have hr : (ctEqAux xs ys).1 = 0 ∨ (ctEqAux xs ys).1 = 1 := by omega
      rcases hr with hr | hr
      · rw [hr] at h
        simp at h
      · have ih := ctEqAux_sound xs ys (fun a ha => hx a (by simp [ha]))
          (fun a ha => hy a (by simp [ha])) (by simpa using hlen) hr
        rw [hxy, ih]
  | [], _ :: _, _, _, hlen, _ => by simp at hlen
  | _ :: _, [], _, _, hlen, _ => by simp at hlen

theorem ctEqAux_steps : ∀ (xs ys : List Nat),
    (ctEqAux xs ys).2 = min xs.length ys.length
  | x :: xs, y :: ys => by
    have ih := ctEqAux_steps xs ys
    simp [ctEqAux, ih, Nat.succ_min_succ]
  | [], [] => rfl
  | [], _ :: _ => rfl
  | _ :: _, [] => rfl

theorem set_ne_of_ne_get (l : List Nat) (i c : Nat) (h : i < l.length)
    (hc : c ≠ l.get ⟨i, h⟩) : l.set i c ≠ l := by
  intro he
  have h2 : (l.set i c).get? i = l.get? i := by rw [he]
  rw [List.get?_set_eq_of_lt c h, List.get?_eq_get h] at h2
  exact hc (Option.some.inj h2)

/-- Claim C1: for every secret and body, verifying the signature produced by
signing the body (base64 of the HMAC-SHA256 of the body keyed by the secret)
succeeds; replacing any single byte of the signature string by any other
byte makes validation fail; and replacing any single byte of the body makes
validation fail whenever it changes the MAC — the latter is HMAC-SHA256's
collision resistance on that pair, a computational assumption stated as the
hypothesis of the third conjunct and discharged concretely in the witness. -/
theorem validate_signature_c1 (channel_secret body : List Nat) :
    validate_signature channel_secret (b64encode (hmacSha256 channel_secret body)) body
      = .ok () ∧
    (∀ (i c : Nat) (h : i < (b64encode (hmacSha256 channel_secret body)).length),
      c ≠ (b64encode (hmacSha256 channel_secret body)).get ⟨i, h⟩ →
      validate_signature channel_secret
          ((b64encode (hmacSha256 channel_secret body)).set i c) body
        = .error (.validationError "Invalid signature")) ∧
    (∀ (j c : Nat) (h : j < body.length),
      c ≠ body.get ⟨j, h⟩ →
      hmacSha256 channel_secret (body.set j c) ≠ hmacSha256 channel_secret body →
      validate_signature channel_secret
          (b64encode (hmacSha256 channel_secret body)) (body.set j c)
        = .error (.validationError "Invalid signature")) := by
  refine ⟨?_, ?_, ?_⟩
  · have hd := b64decode_encode _ (hmacSha256_lt channel_secret body)
    simp [validate_signature, hd, ctEqAux_self]
  · intro i c h hc
    have hne := set_ne_of_ne_get _ i c h hc
    cases hdec : b64decode ((b64encode (hmacSha256 channel_secret body)).set i c) with
    | none => simp [validate_signature, hdec]
    | some bs =>
      have henc := b64decode_some _ _ hdec
      have hraw := b64decode_raw _ _ hdec
      have hbs : ∀ x ∈ bs, x < 256 := by
        rw [hraw]
        exact b64rawDecode_lt _
      have hbsne : bs ≠ hmacSha256 channel_secret body := by
        intro hEq
        exact hne (by rw [← henc, hEq])
      have hcond : ¬(bs.length = (hmacSha256 channel_secret body).length ∧
          (ctEqAux (hmacSha256 channel_secret body) bs).1 = 1) := by
        rintro ⟨hlen, hct⟩
        exact hbsne
          (ctEqAux_sound _ _ (hmacSha256_lt _ _) hbs hlen.symm hct).symm
      simp [validate_signature, hdec, hcond]
  · intro j c h hc hmne
    have hd := b64decode_encode (hmacSha256 channel_secret body)
      (hmacSha256_lt channel_secret body)
    have hcond : ¬((hmacSha256 channel_secret body).length
          = (hmacSha256 channel_secret (body.set j c)).length ∧
        (ctEqAux (hmacSha256 channel_secret (body.set j c))
          (hmacSha256 channel_secret body)).1 = 1) := by
      rintro ⟨hlen, hct⟩
      exact hmne
        (ctEqAux_sound _ _ (hmacSha256_lt _ _) (hmacSha256_lt _ _) hlen.symm hct)
    simp [validate_signature, hd, hcond]

set_option maxRecDepth 40000 in
/-- Witness for `validate_signature_c1` at secret `[107]` and body
`[97, 98, 99]`, flipping signature byte 0 to `33` and body byte 0 to `98`;
the MAC inequality hypothesis is computed by `decide`. -/
theorem validate_signature_c1_witness :
    validate_signature [107] (b64encode (hmacSha256 [107] [97, 98, 99])) [97, 98, 99]
      = .ok () ∧
    validate_signature [107]
        ((b64encode (hmacSha256 [107] [97, 98, 99])).set 0 33) [97, 98, 99]
      = .error (.validationError "Invalid signature") ∧
    validate_signature [107]
        (b64encode (hmacSha256 [107] [97, 98, 99])) ([97, 98, 99].set 0 98)
      = .error (.validationError "Invalid signature") :=
  ⟨(validate_signature_c1 [107] [97, 98, 99]).1,
   (validate_signature_c1 [107] [97, 98, 99]).2.1 0 33 (by decide) (by decide),
   (validate_signature_c1 [107] [97, 98, 99]).2.2 0 98 (by decide) (by decide)
     (by decide)⟩

/-- Claim C2: whenever signature validation fails, `parse_request_handler`
answers `401` with body `success: false, error: "Invalid signature"`, and
performs zero downstream work: no background task is spawned, so the body is
never parsed and no AI-resolver or delivery call can occur. -/
theorem invalid_signature_rejected (channel_secret signature body : List Nat)
    (e : ApiError)
    (h : validate_signature channel_secret signature body = .error e) :
    parse_request_handler channel_secret signature body
      = ({ status := 401, success := false, error := some "Invalid signature" },
         none) := by
  simp [parse_request_handler, h]

/-- Witness for `invalid_signature_rejected` at a signature that is not valid
base64 (the single byte 33). -/
theorem invalid_signature_rejected_witness :
    parse_request_handler [107] [33] [97]
      = ({ status := 401, success := false, error := some "Invalid signature" },
         none) :=
  invalid_signature_rejected [107] [33] [97]
    (.validationError "Invalid signature") rfl

/-- Claim C9: the MAC comparison performed by `validate_signature` (the
`subtle` fold `ctEqAux`) is constant-time in the sense that its number of
byte-comparison steps depends only on the lengths of the two inputs — for two
candidate signatures of equal length the step count is identical no matter
where they first differ from the MAC — and equals the minimum of the lengths,
so every byte is examined with no short-circuit. -/
theorem ctEq_constant_time (mac s1 s2 : List Nat) (h : s1.length = s2.length) :
    (ctEqAux mac s1).2 = (ctEqAux mac s2).2 ∧
    (ctEqAux mac s1).2 = min mac.length s1.length := by
  constructor
  · rw [ctEqAux_steps, ctEqAux_steps, h]
  · exact ctEqAux_steps _ _

/-- Witness for `ctEq_constant_time`: against the reference bytes
`[1, 2, 3]`, the matching input `[1, 2, 3]` and the everywhere-different
input `[7, 8, 9]` take the same number of comparison steps. -/
theorem ctEq_constant_time_witness :
    (ctEqAux [1, 2, 3] [1, 2, 3]).2 = (ctEqAux [1, 2, 3] [7, 8, 9]).2 ∧
    (ctEqAux [1, 2, 3] [1, 2, 3]).2
      = min ([1, 2, 3] : List Nat).length ([1, 2, 3] : List Nat).length :=
  ctEq_constant_time [1, 2, 3] [1, 2, 3] [7, 8, 9] rfl

